import Mathlib

/-!
Verification of the KEN-library application (src/app.py), a Streamlit + SQLite
CRUD program.  The Python source is shallowly embedded: each SQL statement and
each page action that writes the database is translated to a pure Lean
function over explicit table states.  SQLite TEXT values are modelled as Lean
strings, NULL as `Option.none`, and the AUTOINCREMENT id generator as an
explicit `nextId` counter.  The SQL texts appearing below are the literals of
app.py with the whitespace of the Python triple-quoted strings normalized to
single spaces.
-/

namespace KenLib

/-- Python str.upper on a sqlite_master type string (these are ASCII). -/
def pyUpper (s : String) : String :=
  String.mk (s.data.map Char.toUpper)

/-- Python str.strip: remove leading and trailing whitespace characters.
app.py calls .strip() on every form field and on every CSV cell before it is
bound as a SQL parameter. -/
def pyStrip (s : String) : String :=
  String.mk (((s.data.dropWhile Char.isWhitespace).reverse.dropWhile Char.isWhitespace).reverse)

/-- A SQL parameter value as bound by the sqlite3 driver. -/
inductive SQLVal where
  | intV (n : Int)
  | strV (s : String)
  | nullV
  deriving DecidableEq

/-- One statement submitted to SQLite: the SQL text plus the bound parameter
tuples (cursor.execute submits one tuple, cursor.executemany one per row; a
statement run without parameters has an empty list). -/
structure Stmt where
  text : String
  params : List (List SQLVal)
  deriving DecidableEq

/-- Conversion of an optional Python value to a bound parameter. -/
def optSQL : Option String → SQLVal
  | none => SQLVal.nullV
  | some s => SQLVal.strV s

/-- SQL text of the locations CREATE TABLE statement (app.py lines 72-78 and
107-113). -/
def createLocationsSQL : String :=
  "CREATE TABLE IF NOT EXISTS locations( id INTEGER PRIMARY KEY AUTOINCREMENT, name TEXT UNIQUE, description TEXT )"

/-- SQL text of the insert-or-ignore into locations (app.py lines 116 and 307
and 400). -/
def insertLocationSQL : String :=
  "INSERT OR IGNORE INTO locations(name, description) VALUES(?, ?)"

/-- Statements submitted by the Issue button (app.py lines 218-221); the due
date argument is already `none` when no date was picked. -/
def issue_stmts (bookId memberId : Int) (due : Option String) : List Stmt :=
  [⟨"INSERT INTO transactions(book_id, member_id, issue_date, due_date) VALUES (?, ?, DATE(\x27now\x27), ?)",
    [[SQLVal.intV bookId, SQLVal.intV memberId, optSQL due]]⟩]

/-- Statement submitted by the Mark-returned button (app.py line 245). -/
def mark_returned_stmts (txnId : Int) : List Stmt :=
  [⟨"UPDATE transactions SET return_date = DATE(\x27now\x27) WHERE id = ?",
    [[SQLVal.intV txnId]]⟩]

/-- Statement submitted by the Add Book form (app.py lines 274-277). -/
def add_book_stmts (title author genre defaultLoc : String) : List Stmt :=
  [⟨"INSERT INTO books(title, author, genre, default_location) VALUES(?, ?, ?, ?)",
    [[SQLVal.strV (pyStrip title), SQLVal.strV (pyStrip author),
      SQLVal.strV (pyStrip genre), SQLVal.strV defaultLoc]]⟩]

/-- Statement submitted by the Add Member form (app.py lines 294-295). -/
def add_member_stmts (name phone email : String) : List Stmt :=
  [⟨"INSERT INTO members(name, phone, email) VALUES(?, ?, ?)",
    [[SQLVal.strV (pyStrip name), SQLVal.strV (pyStrip phone), SQLVal.strV (pyStrip email)]]⟩]

/-- Statement submitted by the Add Location form (app.py lines 307-308). -/
def add_location_stmts (name desc : String) : List Stmt :=
  [⟨insertLocationSQL, [[SQLVal.strV (pyStrip name), SQLVal.strV (pyStrip desc)]]⟩]

/-- Statements submitted by the books CSV import once validation passed
(app.py lines 342-349): the unique-index creation followed by one executemany
over the prepared (title, author, genre, default_location) tuples. -/
def import_books_stmts (rows : List (String × String × String × String)) : List Stmt :=
  [⟨"CREATE UNIQUE INDEX IF NOT EXISTS idx_books_title_author ON books(title, author)", []⟩,
   ⟨"INSERT OR IGNORE INTO books(title, author, genre, default_location) VALUES(?, ?, ?, ?)",
    rows.map (fun r => [SQLVal.strV r.1, SQLVal.strV r.2.1, SQLVal.strV r.2.2.1, SQLVal.strV r.2.2.2])⟩]

/-- Statement submitted by the members CSV import (app.py lines 373-375). -/
def import_members_stmts (rows : List (String × String × String)) : List Stmt :=
  [⟨"INSERT INTO members(name, phone, email) VALUES(?, ?, ?)",
    rows.map (fun r => [SQLVal.strV r.1, SQLVal.strV r.2.1, SQLVal.strV r.2.2])⟩]

/-- Statement submitted by the locations CSV import (app.py lines 399-401). -/
def import_locations_stmts (rows : List (String × String)) : List Stmt :=
  [⟨insertLocationSQL, rows.map (fun r => [SQLVal.strV r.1, SQLVal.strV r.2])⟩]

/-- Statements submitted by ensure_default_locations (app.py lines 103-119):
the CREATE TABLE plus one parameterized insert per compartment. -/
def ensure_default_locations_stmts (n : Nat) : List Stmt :=
  ⟨createLocationsSQL, []⟩ ::
    (List.range n).map (fun i =>
      ⟨insertLocationSQL,
       [[SQLVal.strV ("Compartment " ++ toString (i+1)),
         SQLVal.strV ("Shelf compartment #" ++ toString (i+1))]]⟩)

/-- Statement submitted by the genre drill-down query of the dashboard, the
one read that takes a runtime parameter (app.py lines 197-203). -/
def genre_books_stmts (pick : String) : List Stmt :=
  [⟨"SELECT id, title AS Title, author AS Author, COALESCE(genre,\x27(Uncategorized)\x27) AS Genre FROM books WHERE COALESCE(genre,\x27(Uncategorized)\x27) = ? ORDER BY title",
    [[SQLVal.strV pick]]⟩]

/-- Statements submitted by _ensure_is_table (app.py lines 28-41): a
parameterized lookup of the object type in sqlite_master, then - when an
object of another type holds the name - a DROP whose text is built by the
Python f-string from the runtime type and the name. -/
def ensure_is_table_stmts (name : String) (objType : Option String) : List Stmt :=
  ⟨"SELECT type FROM sqlite_master WHERE name=?", [[SQLVal.strV name]]⟩ ::
    match objType with
    | none => []
    | some t => if t = "table" then [] else [⟨"DROP " ++ pyUpper t ++ " " ++ name, []⟩]

/-- A row of the books table (app.py lines 49-59); tags and notes are never
written by any flow, so they stay NULL unless the database was edited
externally. -/
structure BookRow where
  id : Nat
  title : String
  author : String
  genre : String
  default_location : String
  tags : Option String
  notes : Option String
  deriving DecidableEq

/-- A row of the members table (app.py lines 62-69). -/
structure MemberRow where
  id : Nat
  name : String
  phone : String
  email : String
  deriving DecidableEq

/-- A row of the locations table (app.py lines 72-78); name is UNIQUE. -/
structure LocRow where
  id : Nat
  name : String
  description : String
  deriving DecidableEq

/-- A row of the transactions table (app.py lines 84-95); a NULL return_date
means the issue is still open. -/
structure TxnRow where
  id : Nat
  book_id : Nat
  member_id : Nat
  issue_date : String
  due_date : Option String
  return_date : Option String
  deriving DecidableEq

/-- A SQLite table: its rows in insertion order plus the AUTOINCREMENT
counter handed to the next inserted row. -/
structure Table (ρ : Type) where
  rows : List ρ
  nextId : Nat
  deriving DecidableEq

/-- What occupies one of the four required names in sqlite_master: nothing, a
table, or a non-table object (view, index or trigger) of the given type. -/
inductive Slot (ρ : Type) where
  | absent
  | tbl (t : Table ρ)
  | nontable (kind : String)
  deriving DecidableEq

/-- True when the name is held by a table. -/
def Slot.isTable {ρ : Type} : Slot ρ → Bool
  | .tbl _ => true
  | _ => false

/-- True when the name is held by a non-table object. -/
def Slot.isNontable {ρ : Type} : Slot ρ → Bool
  | .nontable _ => true
  | _ => false

/-- Rows stored under the name (empty when it is not a table). -/
def Slot.rowsOf {ρ : Type} : Slot ρ → List ρ
  | .tbl t => t.rows
  | _ => []

/-- CREATE TABLE IF NOT EXISTS: creates an empty table when the name is free
and is a no-op when a table or view already holds the name.  For a same-named
index SQLite raises an error even with IF NOT EXISTS; that aborts the whole
init_db transaction and rolls it back, which also leaves the slot unchanged,
so the no-op is a faithful account of the slot in every state the claims are
settled on (the claims below either exclude non-table collisions on books,
members and locations, or use a view). -/
def createIfNotExists {ρ : Type} : Slot ρ → Slot ρ
  | .absent => .tbl ⟨[], 1⟩
  | s => s

/-- Embedding of _ensure_is_table (app.py lines 35-41): when the name is held
by a non-table object, that object is dropped; otherwise nothing happens. -/
def ensure_is_table {ρ : Type} : Slot ρ → Slot ρ
  | .nontable _ => .absent
  | s => s

/-- The schema-level database state: the four required names and the three
indexes the program creates. -/
structure DB where
  books : Slot BookRow
  members : Slot MemberRow
  locations : Slot LocRow
  transactions : Slot TxnRow
  ixTransOpen : Bool
  ixTransMember : Bool
  idxBooksTitleAuthor : Bool
  deriving DecidableEq

/-- Embedding of init_db (app.py lines 44-101): CREATE TABLE IF NOT EXISTS for
books, members and locations; _ensure_is_table("transactions") followed by
CREATE TABLE IF NOT EXISTS transactions; then the two CREATE INDEX IF NOT
EXISTS statements. -/
def init_db (db : DB) : DB :=
  { books := createIfNotExists db.books,
    members := createIfNotExists db.members,
    locations := createIfNotExists db.locations,
    transactions := createIfNotExists (ensure_is_table db.transactions),
    ixTransOpen := true,
    ixTransMember := true,
    idxBooksTitleAuthor := db.idxBooksTitleAuthor }

/-- INSERT OR IGNORE INTO locations(name, description): inserted only when no
row already carries the (UNIQUE) name; an ignored insert does not consume an
AUTOINCREMENT id. -/
def insertOrIgnoreLoc (t : Table LocRow) (name desc : String) : Table LocRow :=
  if t.rows.any (fun r => r.name = name) then t
  else ⟨t.rows ++ [⟨t.nextId, name, desc⟩], t.nextId + 1⟩

/-- Embedding of ensure_default_locations (app.py lines 103-119): CREATE TABLE
IF NOT EXISTS locations, then insert-or-ignore Compartment 1..n in order.
When a non-table object holds the name the creation is a no-op and the first
insert fails, rolling the transaction back, so the state is unchanged. -/
def ensure_default_locations (n : Nat) (sl : Slot LocRow) : Slot LocRow :=
  match createIfNotExists sl with
  | .tbl t =>
      .tbl ((List.range n).foldl
        (fun tt i => insertOrIgnoreLoc tt ("Compartment " ++ toString (i+1))
          ("Shelf compartment #" ++ toString (i+1))) t)
  | s => s

/-- Embedding of the Add Location form handler (app.py lines 306-309) for a
pressed button: when the stripped name is falsy (empty) nothing runs and no
success message is shown; otherwise the insert-or-ignore runs on the stripped
values and st.success is shown unconditionally.  The returned Bool is whether
the success message was displayed. -/
def add_location (name desc : String) (t : Table LocRow) : Table LocRow × Bool :=
  if pyStrip name = "" then (t, false)
  else (insertOrIgnoreLoc t (pyStrip name) (pyStrip desc), true)

/-- The two operations of app.py that write the transactions table: the INSERT
of the Issue button (line 218) and the UPDATE of the Mark-returned button
(line 245).  No other statement in the program writes transactions rows, and
the program contains no DELETE at all. -/
inductive Op where
  | issue (bookId memberId : Nat) (due : Option String) (today : String)
  | markReturned (txnId : Nat) (today : String)

/-- Effect of one operation on the transactions table.  Issue appends a fresh
row with return_date NULL; Mark-returned sets return_date = DATE(now) on every
row whose id matches (the UPDATE has no further condition). -/
def applyOp (tb : Table TxnRow) : Op → Table TxnRow
  | .issue b m due today =>
      ⟨tb.rows ++ [⟨tb.nextId, b, m, today, due, none⟩], tb.nextId + 1⟩
  | .markReturned tid today =>
      ⟨tb.rows.map (fun r => if r.id = tid then { r with return_date := some today } else r),
       tb.nextId⟩

/-- A sequence of operations applied in order. -/
def applyOps (tb : Table TxnRow) (ops : List Op) : Table TxnRow :=
  ops.foldl applyOp tb

/-- The return_date of the transaction with the given id: `none` when no such
row exists, otherwise the (possibly NULL) stored date. -/
def returnDateOf (tb : Table TxnRow) (tid : Nat) : Option (Option String) :=
  (tb.rows.find? (fun r => r.id = tid)).map (fun r => r.return_date)

/-- Whether an operation is the explicit mark-returned action on the given
transaction id. -/
def targetsTxn (tid : Nat) : Op → Bool
  | .markReturned i _ => i = tid
  | _ => false

/-- Python str.lower on a header name (the headers involved are ASCII). -/
def pyLower (s : String) : String :=
  String.mk (s.data.map Char.toLower)

/-- A parsed CSV as pandas hands it to the import code: the header names and,
per data row, one cell per header.  A cell is `none` when the field was empty
or missing, which pandas reads as NaN; otherwise the cell text. -/
structure Csv where
  headers : List String
  rows : List (List (Option String))
  deriving DecidableEq

/-- Index of the header matched case-insensitively.  The Python code builds
the dict (c.lower(): c for c in df.columns), in which a later column with the
same lowercased name overwrites an earlier one, so the LAST match wins. -/
def colIndex (headers : List String) (lo : String) : Option Nat :=
  ((headers.enum.filter (fun p => pyLower p.2 = lo)).map (fun p => p.1)).getLast?

/-- Python str(cell) for one pandas cell: a missing value (NaN) prints as the
string nan. -/
def cellStr : Option String → String
  | none => "nan"
  | some s => s

/-- The value the import code extracts for one lowercase column name:
str(r.get(name, "")).strip() after the case-normalizing rename. -/
def fieldOf (headers : List String) (row : List (Option String)) (lo : String) : String :=
  pyStrip (match colIndex headers lo with
    | none => ""
    | some i => cellStr (row.getD i none))

/-- Validation needed.issubset(set(cols.keys())) with cols keyed by the
lowercased header names. -/
def requiredPresent (headers : List String) (needed : List String) : Bool :=
  needed.all (fun c => (headers.map pyLower).contains c)

/-- Required columns of books.csv (app.py line 328). -/
def booksNeeded : List String := ["title", "author", "genre", "default_location"]

/-- Required columns of members.csv (app.py line 358). -/
def membersNeeded : List String := ["name", "phone", "email"]

/-- Required columns of locations.csv (app.py line 386). -/
def locationsNeeded : List String := ["name", "description"]

/-- One prepared books-import tuple (app.py lines 336-341). -/
structure BookTuple where
  title : String
  author : String
  genre : String
  default_location : String
  deriving DecidableEq

/-- The tuples the books import prepares from a CSV. -/
def bookTuples (csv : Csv) : List BookTuple :=
  csv.rows.map (fun r =>
    ⟨fieldOf csv.headers r "title", fieldOf csv.headers r "author",
     fieldOf csv.headers r "genre", fieldOf csv.headers r "default_location"⟩)

/-- Whether some books row already carries the (title, author) key. -/
def bookKeyPresent (rows : List BookRow) (t a : String) : Bool :=
  rows.any (fun b => b.title = t && b.author = a)

/-- INSERT OR IGNORE INTO books under the unique (title, author) index. -/
def insertOrIgnoreBook (t : Table BookRow) (tu : BookTuple) : Table BookRow :=
  if bookKeyPresent t.rows tu.title tu.author then t
  else ⟨t.rows ++ [⟨t.nextId, tu.title, tu.author, tu.genre, tu.default_location, none, none⟩],
        t.nextId + 1⟩

/-- The books table together with the unique index the import creates. -/
structure BooksDB where
  books : Table BookRow
  idxTitleAuthor : Bool
  deriving DecidableEq

/-- Embedding of the books-CSV import branch (app.py lines 326-350).  Missing
required columns abort with an error and no insert.  Otherwise CREATE UNIQUE
INDEX IF NOT EXISTS idx_books_title_author runs first: when the index does not
exist yet and the table already holds duplicate (title, author) pairs, that
statement fails, the transaction rolls back and nothing is inserted (the
returned Bool is whether the user saw an error instead of the success
message).  When it succeeds, each prepared tuple is inserted-or-ignored in
order. -/
def import_books (csv : Csv) (db : BooksDB) : BooksDB × Bool :=
  if requiredPresent csv.headers booksNeeded then
    if db.idxTitleAuthor then
      (⟨(bookTuples csv).foldl insertOrIgnoreBook db.books, true⟩, false)
    else if (db.books.rows.map (fun b => (b.title, b.author))).Nodup then
      (⟨(bookTuples csv).foldl insertOrIgnoreBook db.books, true⟩, false)
    else (db, true)
  else (db, true)

/-- Embedding of the members-CSV import branch (app.py lines 356-377): plain
INSERT, one appended row per CSV row, no de-duplication. -/
def import_members (csv : Csv) (t : Table MemberRow) : Table MemberRow × Bool :=
  if requiredPresent csv.headers membersNeeded then
    (csv.rows.foldl
      (fun tt r =>
        ⟨tt.rows ++ [⟨tt.nextId, fieldOf csv.headers r "name",
          fieldOf csv.headers r "phone", fieldOf csv.headers r "email"⟩], tt.nextId + 1⟩)
      t, false)
  else (t, true)

/-- Embedding of the locations-CSV import branch (app.py lines 383-403):
insert-or-ignore on the UNIQUE name. -/
def import_locations (csv : Csv) (t : Table LocRow) : Table LocRow × Bool :=
  if requiredPresent csv.headers locationsNeeded then
    (csv.rows.foldl
      (fun tt r => insertOrIgnoreLoc tt (fieldOf csv.headers r "name")
        (fieldOf csv.headers r "description"))
      t, false)
  else (t, true)

/-- Insertion of a row into a list sorted by title, preserving the order of
equal titles (models ORDER BY title). -/
def insertByTitle (b : BookRow) : List BookRow → List BookRow
  | [] => [b]
  | c :: cs => if c.title ≤ b.title then c :: insertByTitle b cs else b :: c :: cs

/-- SELECT * FROM books ORDER BY title. -/
def sortByTitle (l : List BookRow) : List BookRow :=
  l.foldr insertByTitle []

/-- Header row of the books export, the natural column order of the table. -/
def exportHeaders : List String :=
  ["id", "title", "author", "genre", "default_location", "tags", "notes"]

/-- The default NA sentinels of pandas read_csv (its documented default
na_values): a CSV field exactly equal to one of these strings is read back as
NaN.  to_csv writes an empty field for NULL, and the empty field is itself in
this list, so the write-then-read composite sends NULL, the empty string and
every sentinel to a missing value. -/
def pandasNAValues : List String :=
  ["", "#N/A", "#N/A N/A", "#NA", "-1.#IND", "-1.#QNAN", "-NaN", "-nan",
   "1.#IND", "1.#QNAN", "<NA>", "N/A", "NA", "NULL", "NaN", "None",
   "n/a", "nan", "null"]

/-- Length of the leading run of decimal digits of a character list, and the
remainder after that run. -/
def dropDigits : List Char → Nat × List Char
  | [] => (0, [])
  | c :: rest =>
      if c.isDigit then
        let p := dropDigits rest
        (p.1 + 1, p.2)
      else (0, c :: rest)

/-- Whether the list starts with digits holding at most one decimal point
(and at least one digit), together with the remainder after that mantissa. -/
def mantissaOk (l : List Char) : Bool × List Char :=
  let p1 := dropDigits l
  match p1.2 with
  | '.' :: r2 =>
      let p2 := dropDigits r2
      (decide (0 < p1.1 + p2.1), p2.2)
  | r => (decide (0 < p1.1), r)

/-- Whether the list is empty or one complete exponent part. -/
def exponentOk : List Char → Bool
  | [] => true
  | c :: rest =>
      if c = 'e' || c = 'E' then
        let body := match rest with
          | c2 :: r2 => if c2 = '+' || c2 = '-' then r2 else c2 :: r2
          | [] => []
        let p := dropDigits body
        decide (0 < p.1) && p.2.isEmpty
      else false

/-- Whether the lowercased character list is an infinity literal. -/
def isInfLiteral (l : List Char) : Bool :=
  let low := l.map Char.toLower
  decide (low = ['i', 'n', 'f']) || decide (low = ['i', 'n', 'f', 'i', 'n', 'i', 't', 'y'])

/-- Whether pandas read_csv could parse the text as a number: an optional
sign, then digits with an optional decimal point and an optional exponent
part, or an infinity literal.  Deliberately inclusive: the round-trip
theorem uses it only negatively, to keep the title and author columns of the
exported file away from numeric dtype inference. -/
def pandasNumericLike (s : String) : Bool :=
  let l := match s.data with
    | c :: rest => if c = '+' || c = '-' then rest else c :: rest
    | [] => []
  if isInfLiteral l then true
  else
    let p := mantissaOk l
    p.1 && exponentOk p.2

/-- Whether the text is a boolean literal that read_csv may fold into a bool
column (again inclusive, used only negatively). -/
def pandasBoolLike (s : String) : Bool :=
  decide (s ∈ ["True", "TRUE", "true", "False", "FALSE", "false"])

/-- A plain string for the pandas write-then-read composite: not an NA
sentinel (in particular non-empty), not numeric-like and not a boolean
literal.  read_csv leaves a column as text as soon as one of its non-missing
fields is neither numeric nor boolean, so a column whose every value is plain
is returned field-for-field verbatim. -/
def pandasPlain (s : String) : Bool :=
  !(decide (s ∈ pandasNAValues)) && !(pandasNumericLike s) && !(pandasBoolLike s)

/-- One exported cell as the next pandas read_csv sees it: the write-then-
read composite sends NULL, the empty string and every NA sentinel to a
missing value, and returns any other text verbatim.  The verbatim case is
exact for every column holding at least one plain value (the column keeps
object dtype); a column wholly numeric or boolean is additionally rewritten
by dtype inference, which the round-trip theorem rules out for the title and
author columns through its plain-string hypothesis - and a rewrite of the
remaining columns cannot reach the table there, because every re-imported
row is already discarded on its (title, author) key. -/
def cellOfStr (s : String) : Option String :=
  if s ∈ pandasNAValues then none else some s

/-- Exported cell for a nullable column. -/
def cellOfOpt : Option String → Option String
  | none => none
  | some s => cellOfStr s

/-- The CSV row the export writes for one books row. -/
def exportRow (b : BookRow) : List (Option String) :=
  [cellOfStr (toString b.id), cellOfStr b.title, cellOfStr b.author, cellOfStr b.genre,
   cellOfStr b.default_location, cellOfOpt b.tags, cellOfOpt b.notes]

/-- Embedding of the Export Books button (app.py lines 408-411): a full dump
of the books table ordered by title. -/
def export_books (t : Table BookRow) : Csv :=
  ⟨exportHeaders, (sortByTitle t.rows).map exportRow⟩

/-- Exporting the books table and importing the produced file back. -/
def roundTripBooks (db : BooksDB) : BooksDB × Bool :=
  import_books (export_books db.books) db

/-! Helper lemmas about the embedded operations.  None of them is a claim
theorem; the claim theorems follow at the end of the file. -/

theorem dropWhile_dropWhile {α : Type} (p : α → Bool) (l : List α) :
    (l.dropWhile p).dropWhile p = l.dropWhile p := by
  induction l with
  | nil => rfl
  | cons x t ih => cases h : p x <;> simp [List.dropWhile_cons, h, ih]

theorem dropWhile_eq_self_of_prefix {α : Type} (p : α → Bool) {c l : List α}
    (hpre : c <+: l) (hl : l.dropWhile p = l) : c.dropWhile p = c := by
  cases c with
  | nil => rfl
  | cons x cs =>
      obtain ⟨t, ht⟩ := hpre
      subst ht
      cases hx : p x with
      | false => simp [List.dropWhile_cons, hx]
      | true =>
          exfalso
          have h1 : ((x :: cs) ++ t).dropWhile p = (cs ++ t).dropWhile p := by
            simp [List.dropWhile_cons, hx]
          rw [hl] at h1
          have h2 : ((cs ++ t).dropWhile p).length ≤ (cs ++ t).length :=
            (List.dropWhile_sublist p).length_le
          rw [← h1] at h2
          simp at h2

theorem strip_core_idem {α : Type} (p : α → Bool) (A : List α) (hAidem : A.dropWhile p = A) :
    ((((A.reverse.dropWhile p).reverse).dropWhile p).reverse.dropWhile p).reverse
      = (A.reverse.dropWhile p).reverse := by
  have hpreC : (A.reverse.dropWhile p).reverse <+: A := by
    have h2 := List.reverse_prefix.mpr (List.dropWhile_suffix p (l := A.reverse))
    rwa [List.reverse_reverse] at h2
  have hC : ((A.reverse.dropWhile p).reverse).dropWhile p = (A.reverse.dropWhile p).reverse :=
    dropWhile_eq_self_of_prefix p hpreC hAidem
  rw [hC, List.reverse_reverse, dropWhile_dropWhile]

theorem pyStrip_idem (s : String) : pyStrip (pyStrip s) = pyStrip s :=
  congrArg String.mk
    (strip_core_idem Char.isWhitespace (s.data.dropWhile Char.isWhitespace)
      (dropWhile_dropWhile Char.isWhitespace s.data))

theorem bookKeyPresent_insert (t : Table BookRow) (tu : BookTuple) :
    bookKeyPresent (insertOrIgnoreBook t tu).rows tu.title tu.author = true := by
  unfold insertOrIgnoreBook
  by_cases h : bookKeyPresent t.rows tu.title tu.author
  · rw [if_pos h]; exact h
  · rw [if_neg h]
    simp [bookKeyPresent, List.any_append]

theorem bookKeyPresent_insert_mono (t : Table BookRow) (tu : BookTuple) (a b : String)
    (h : bookKeyPresent t.rows a b = true) :
    bookKeyPresent (insertOrIgnoreBook t tu).rows a b = true := by
  unfold insertOrIgnoreBook
  by_cases hc : bookKeyPresent t.rows tu.title tu.author
  · rw [if_pos hc]; exact h
  · rw [if_neg hc]
    unfold bookKeyPresent at h ⊢
    rw [List.any_append, h]
    rfl

theorem bookKeyPresent_foldl_mono (l : List BookTuple) (a b : String) :
    ∀ (t : Table BookRow), bookKeyPresent t.rows a b = true →
      bookKeyPresent ((l.foldl insertOrIgnoreBook t).rows) a b = true := by
  induction l with
  | nil => intro t h; simpa
  | cons x xs ih =>
      intro t h
      exact ih (insertOrIgnoreBook t x) (bookKeyPresent_insert_mono t x a b h)

theorem bookKeyPresent_foldl_self (l : List BookTuple) (tu : BookTuple) :
    ∀ (t : Table BookRow), tu ∈ l →
      bookKeyPresent ((l.foldl insertOrIgnoreBook t).rows) tu.title tu.author = true := by
  induction l with
  | nil => intro t h; cases h
  | cons x xs ih =>
      intro t h
      rcases List.mem_cons.mp h with heq | hmem
      · subst heq
        exact bookKeyPresent_foldl_mono xs tu.title tu.author (insertOrIgnoreBook t tu)
          (bookKeyPresent_insert t tu)
      · exact ih (insertOrIgnoreBook t x) hmem

theorem foldl_insertOrIgnoreBook_id (l : List BookTuple) (t : Table BookRow)
    (h : ∀ tu ∈ l, bookKeyPresent t.rows tu.title tu.author = true) :
    l.foldl insertOrIgnoreBook t = t := by
  induction l with
  | nil => rfl
  | cons x xs ih =>
      have hx : insertOrIgnoreBook t x = t := by
        simp [insertOrIgnoreBook, h x (List.mem_cons_self x xs)]
      rw [List.foldl_cons, hx]
      exact ih (fun tu htu => h tu (List.mem_cons_of_mem x htu))

theorem mem_insertByTitle (b x : BookRow) (l : List BookRow) :
    x ∈ insertByTitle b l ↔ x = b ∨ x ∈ l := by
  induction l with
  | nil => simp [insertByTitle]
  | cons c cs ih =>
      by_cases h : c.title ≤ b.title
      · simp only [insertByTitle, if_pos h, List.mem_cons, ih]
        tauto
      · simp only [insertByTitle, if_neg h, List.mem_cons]

theorem mem_sortByTitle (x : BookRow) (l : List BookRow) :
    x ∈ sortByTitle l ↔ x ∈ l := by
  induction l with
  | nil => simp [sortByTitle]
  | cons c cs ih =>
      have hstep : sortByTitle (c :: cs) = insertByTitle c (sortByTitle cs) := rfl
      rw [hstep, mem_insertByTitle, ih, List.mem_cons]

theorem pandasPlain_not_NA (s : String) (h : pandasPlain s = true) :
    ¬ s ∈ pandasNAValues := by
  intro hmem
  unfold pandasPlain at h
  rw [decide_eq_true hmem] at h
  simp at h

theorem fieldOf_exportRow_title (b : BookRow) (h : ¬ b.title ∈ pandasNAValues) :
    fieldOf exportHeaders (exportRow b) ("title") = pyStrip b.title := by
  have hidx : colIndex exportHeaders ("title") = some 1 := by decide
  unfold fieldOf
  rw [hidx]
  simp [exportRow, cellOfStr, cellStr, h]

theorem fieldOf_exportRow_author (b : BookRow) (h : ¬ b.author ∈ pandasNAValues) :
    fieldOf exportHeaders (exportRow b) ("author") = pyStrip b.author := by
  have hidx : colIndex exportHeaders ("author") = some 2 := by decide
  unfold fieldOf
  rw [hidx]
  simp [exportRow, cellOfStr, cellStr, h]

theorem find?_append_left {α : Type} (p : α → Bool) (l₁ l₂ : List α)
    (h : (l₁.find? p).isSome = true) : (l₁ ++ l₂).find? p = l₁.find? p := by
  rw [List.find?_append]
  cases hf : l₁.find? p with
  | none => rw [hf] at h; simp at h
  | some a => rfl

theorem find?_mark_rows (rows : List TxnRow) (tid txnId : Nat) (d : String) :
    ((rows.map (fun r => if r.id = txnId then { r with return_date := some d } else r)).find?
        (fun r => r.id = tid))
      = ((rows.find? (fun r => r.id = tid)).map
          (fun r => if r.id = txnId then { r with return_date := some d } else r)) := by
  induction rows with
  | nil => rfl
  | cons r rs ih =>
      have hid : (if r.id = txnId then { r with return_date := some d } else r).id = r.id := by
        by_cases hx : r.id = txnId <;> simp [hx]
      by_cases h : r.id = tid
      · rw [List.map_cons,
          List.find?_cons_of_pos _ (by simp only [hid, decide_eq_true_eq]; exact h),
          List.find?_cons_of_pos _ (by simp [h])]
        rfl
      · rw [List.map_cons,
          List.find?_cons_of_neg _ (by simp only [hid]; simp [h]),
          List.find?_cons_of_neg _ (by simp [h])]
        exact ih

theorem returnDateOf_mark_eq (tb : Table TxnRow) (tid : Nat) (d : String)
    (h : (tb.rows.find? (fun r => r.id = tid)).isSome = true) :
    returnDateOf (applyOp tb (Op.markReturned tid d)) tid = some (some d) := by
  unfold returnDateOf applyOp
  rw [find?_mark_rows]
  cases hf : tb.rows.find? (fun r => r.id = tid) with
  | none => rw [hf] at h; simp at h
  | some r =>
      have hr : r.id = tid := by simpa using List.find?_some hf
      simp [hr]

theorem returnDateOf_mark_ne (tb : Table TxnRow) (tid txnId : Nat) (d : String)
    (hne : txnId ≠ tid) :
    returnDateOf (applyOp tb (Op.markReturned txnId d)) tid = returnDateOf tb tid := by
  unfold returnDateOf applyOp
  rw [find?_mark_rows]
  cases hf : tb.rows.find? (fun r => r.id = tid) with
  | none => rfl
  | some r =>
      have hr : r.id = tid := by simpa using List.find?_some hf
      have hr2 : r.id ≠ txnId := by rw [hr]; exact fun hh => hne hh.symm
      simp [hr2]

theorem returnDateOf_issue (tb : Table TxnRow) (tid b m : Nat) (due : Option String)
    (today : String) (h : (tb.rows.find? (fun r => r.id = tid)).isSome = true) :
    returnDateOf (applyOp tb (Op.issue b m due today)) tid = returnDateOf tb tid := by
  unfold returnDateOf applyOp
  rw [find?_append_left _ _ _ h]

theorem isSome_find?_applyOp (tb : Table TxnRow) (tid : Nat) (op : Op)
    (h : (tb.rows.find? (fun r => r.id = tid)).isSome = true) :
    ((applyOp tb op).rows.find? (fun r => r.id = tid)).isSome = true := by
  cases op with
  | issue b m due today =>
      simp only [applyOp]
      rw [find?_append_left _ _ _ h]
      exact h
  | markReturned txnId d =>
      simp only [applyOp]
      rw [find?_mark_rows]
      cases hf : tb.rows.find? (fun r => r.id = tid) with
      | none => rw [hf] at h; simp at h
      | some r => rfl

theorem applyOp_keeps_returned (tb : Table TxnRow) (tid : Nat) (op : Op)
    (h : ∃ d1, returnDateOf tb tid = some (some d1)) :
    ∃ d2, returnDateOf (applyOp tb op) tid = some (some d2) := by
  obtain ⟨d1, hd⟩ := h
  have hsome : (tb.rows.find? (fun r => r.id = tid)).isSome = true := by
    unfold returnDateOf at hd
    cases hf : tb.rows.find? (fun r => r.id = tid) with
    | none => rw [hf] at hd; simp at hd
    | some r => rfl
  cases op with
  | issue b m due today =>
      exact ⟨d1, by rw [returnDateOf_issue tb tid b m due today hsome]; exact hd⟩
  | markReturned txnId d =>
      by_cases he : txnId = tid
      · subst he
        exact ⟨d, returnDateOf_mark_eq tb txnId d hsome⟩
      · exact ⟨d1, by rw [returnDateOf_mark_ne tb tid txnId d he]; exact hd⟩

theorem applyOps_keeps_returned (ops : List Op) (tid : Nat) :
    ∀ (tb : Table TxnRow), (∃ d1, returnDateOf tb tid = some (some d1)) →
      ∃ d2, returnDateOf (applyOps tb ops) tid = some (some d2) := by
  induction ops with
  | nil => intro tb h; exact h
  | cons op rest ih =>
      intro tb h
      exact ih (applyOp tb op) (applyOp_keeps_returned tb tid op h)

theorem applyOps_preserves_untargeted (ops : List Op) (tid : Nat) :
    ∀ (tb : Table TxnRow), (tb.rows.find? (fun r => r.id = tid)).isSome = true →
      (∀ op ∈ ops, targetsTxn tid op = false) →
      returnDateOf (applyOps tb ops) tid = returnDateOf tb tid := by
  induction ops with
  | nil => intro tb _ _; rfl
  | cons op rest ih =>
      intro tb hsome hops
      have hop := hops op (List.mem_cons_self op rest)
      have step : returnDateOf (applyOp tb op) tid = returnDateOf tb tid := by
        cases op with
        | issue b m due today => exact returnDateOf_issue tb tid b m due today hsome
        | markReturned txnId d =>
            have hne : txnId ≠ tid := by simpa [targetsTxn] using hop
            exact returnDateOf_mark_ne tb tid txnId d hne
      have hsome2 := isSome_find?_applyOp tb tid op hsome
      have hrest : applyOps tb (op :: rest) = applyOps (applyOp tb op) rest := rfl
      rw [hrest, ih (applyOp tb op) hsome2 (fun o ho => hops o (List.mem_cons_of_mem op ho)),
        step]

theorem createIfNotExists_idem {ρ : Type} (s : Slot ρ) :
    createIfNotExists (createIfNotExists s) = createIfNotExists s := by
  cases s <;> rfl

theorem create_ensure_idem {ρ : Type} (s : Slot ρ) :
    createIfNotExists (ensure_is_table (createIfNotExists (ensure_is_table s)))
      = createIfNotExists (ensure_is_table s) := by
  cases s <;> rfl

/-! Concrete fixtures used by the claim theorems below. -/

/-- A database state in which a view occupies the name books. -/
def dbBooksView : DB :=
  ⟨Slot.nontable ("view"), Slot.absent, Slot.absent, Slot.absent, false, false, false⟩

/-- A small database state in which every name is already a table. -/
def dbAllTables : DB :=
  ⟨Slot.tbl ⟨[⟨1, "T", "A", "G", "L", none, none⟩], 2⟩, Slot.tbl ⟨[], 1⟩,
   Slot.tbl ⟨[], 1⟩, Slot.tbl ⟨[], 1⟩, false, false, false⟩

/-- A books state holding one row whose title carries a leading blank. -/
def dbPaddedTitle : BooksDB := ⟨⟨[⟨1, " A", "B", "", "", none, none⟩], 2⟩, false⟩

/-- A books state holding one row with trimmed, non-empty title and author. -/
def dbCleanBooks : BooksDB := ⟨⟨[⟨1, "A", "B", "G", "L", none, none⟩], 2⟩, false⟩

/-- The locations slot after one run of the default seeding on a fresh file. -/
def seededOnce : Slot LocRow := ensure_default_locations 45 Slot.absent

/-- The locations slot after running the default seeding a second time. -/
def seededTwice : Slot LocRow := ensure_default_locations 45 seededOnce

/-- A transactions table holding a single open transaction. -/
def txnTb0 : Table TxnRow := ⟨[⟨1, 1, 1, "2025-01-01", none, none⟩], 2⟩

/-- A locations table holding the first default compartment. -/
def locTb0 : Table LocRow := ⟨[⟨1, "Compartment 1", "Shelf compartment #1"⟩], 2⟩

/-- A CSV with no columns at all. -/
def emptyCsv : Csv := ⟨[], []⟩

/-! The claim theorems. -/

/-- C1, counterexample: the program does not submit input-independent SQL
text for every statement.  _ensure_is_table builds its DROP statement with an
f-string, so the text submitted for the name transactions differs between a
run in which sqlite_master records a view under that name and one in which it
records an index. -/
theorem c1_counterexample :
    (ensure_is_table_stmts ("transactions") (some ("view"))).map Stmt.text ≠
      (ensure_is_table_stmts ("transactions") (some ("index"))).map Stmt.text := by
  decide

/-- C1, amended: every SQL statement of the program except the DROP inside
_ensure_is_table has constant text, with runtime values passed only through
bound parameters: for every pair of runtime inputs each emitter produces
identical text lists.  The exception is the DROP, whose text interpolates the
object type read from sqlite_master and the target name. -/
theorem c1_sql_binding_amended :
    (∀ b m d b2 m2 d2, (issue_stmts b m d).map Stmt.text
        = (issue_stmts b2 m2 d2).map Stmt.text)
    ∧ (∀ i i2, (mark_returned_stmts i).map Stmt.text
        = (mark_returned_stmts i2).map Stmt.text)
    ∧ (∀ a b c d a2 b2 c2 d2, (add_book_stmts a b c d).map Stmt.text
        = (add_book_stmts a2 b2 c2 d2).map Stmt.text)
    ∧ (∀ a b c a2 b2 c2, (add_member_stmts a b c).map Stmt.text
        = (add_member_stmts a2 b2 c2).map Stmt.text)
    ∧ (∀ a b a2 b2, (add_location_stmts a b).map Stmt.text
        = (add_location_stmts a2 b2).map Stmt.text)
    ∧ (∀ rows rows2, (import_books_stmts rows).map Stmt.text
        = (import_books_stmts rows2).map Stmt.text)
    ∧ (∀ rows rows2, (import_members_stmts rows).map Stmt.text
        = (import_members_stmts rows2).map Stmt.text)
    ∧ (∀ rows rows2, (import_locations_stmts rows).map Stmt.text
        = (import_locations_stmts rows2).map Stmt.text)
    ∧ (∀ p p2, (genre_books_stmts p).map Stmt.text
        = (genre_books_stmts p2).map Stmt.text)
    ∧ (∀ n, (ensure_default_locations_stmts n).map Stmt.text
        = createLocationsSQL :: List.replicate n insertLocationSQL)
    ∧ (∀ name t, (ensure_is_table_stmts name (some t)).map Stmt.text
        = if t = "table" then ["SELECT type FROM sqlite_master WHERE name=?"]
          else ["SELECT type FROM sqlite_master WHERE name=?",
                "DROP " ++ pyUpper t ++ " " ++ name]) := by
  refine ⟨fun _ _ _ _ _ _ => rfl, fun _ _ => rfl, fun _ _ _ _ _ _ _ _ => rfl,
    fun _ _ _ _ _ _ => rfl, fun _ _ _ _ => rfl, fun _ _ => rfl, fun _ _ => rfl,
    fun _ _ => rfl, fun _ _ => rfl, ?_, ?_⟩
  · intro n
    simp only [ensure_default_locations_stmts, List.map_cons, List.map_map]
    congr 1
    rw [List.eq_replicate_iff]
    constructor
    · simp
    · intro b hb
      simp only [List.mem_map, Function.comp] at hb
      obtain ⟨i, _, hbi⟩ := hb
      exact hbi.symm
  · intro name t
    by_cases h : t = "table" <;> simp [ensure_is_table_stmts, h]

/-- C2, counterexample: schema initialization does not repair a name
collision for every one of the four required tables.  Starting from a state
in which a view holds the name books, init_db leaves the view in place (the
CREATE TABLE IF NOT EXISTS is a no-op), so books is still not a table. -/
theorem c2_counterexample :
    (init_db dbBooksView).books.isTable = false ∧
      (init_db dbBooksView).books = Slot.nontable ("view") := by
  decide

/-- C2, amended: on startup init_db ensures the two indexes exist and the
transactions table exists, repairing a transactions name collision by
dropping the colliding non-table object; books, members and locations are
created only when their name is free, so they are guaranteed to be tables
only when no same-named non-table object exists.  No table rows are
destroyed, and an existing transactions table is left untouched. -/
theorem c2_init_db_amended (db : DB)
    (hb : db.books.isNontable = false)
    (hm : db.members.isNontable = false)
    (hl : db.locations.isNontable = false) :
    (init_db db).books.isTable = true ∧
    (init_db db).members.isTable = true ∧
    (init_db db).locations.isTable = true ∧
    (init_db db).transactions.isTable = true ∧
    (init_db db).ixTransOpen = true ∧
    (init_db db).ixTransMember = true ∧
    (init_db db).books.rowsOf = db.books.rowsOf ∧
    (init_db db).members.rowsOf = db.members.rowsOf ∧
    (init_db db).locations.rowsOf = db.locations.rowsOf ∧
    (init_db db).transactions.rowsOf = db.transactions.rowsOf ∧
    (db.transactions.isTable = true → (init_db db).transactions = db.transactions) := by
  refine ⟨?_, ?_, ?_, ?_, rfl, rfl, ?_, ?_, ?_, ?_, ?_⟩
  · cases hcase : db.books with
    | absent => simp [init_db, hcase, createIfNotExists, Slot.isTable]
    | tbl u => simp [init_db, hcase, createIfNotExists, Slot.isTable]
    | nontable k => rw [hcase] at hb; simp [Slot.isNontable] at hb
  · cases hcase : db.members with
    | absent => simp [init_db, hcase, createIfNotExists, Slot.isTable]
    | tbl u => simp [init_db, hcase, createIfNotExists, Slot.isTable]
    | nontable k => rw [hcase] at hm; simp [Slot.isNontable] at hm
  · cases hcase : db.locations with
    | absent => simp [init_db, hcase, createIfNotExists, Slot.isTable]
    | tbl u => simp [init_db, hcase, createIfNotExists, Slot.isTable]
    | nontable k => rw [hcase] at hl; simp [Slot.isNontable] at hl
  · cases hcase : db.transactions <;>
      simp [init_db, hcase, createIfNotExists, ensure_is_table, Slot.isTable]
  · cases hcase : db.books <;>
      simp [init_db, hcase, createIfNotExists, Slot.rowsOf]
  · cases hcase : db.members <;>
      simp [init_db, hcase, createIfNotExists, Slot.rowsOf]
  · cases hcase : db.locations <;>
      simp [init_db, hcase, createIfNotExists, Slot.rowsOf]
  · cases hcase : db.transactions <;>
      simp [init_db, hcase, createIfNotExists, ensure_is_table, Slot.rowsOf]
  · intro htbl
    cases hcase : db.transactions with
    | absent => rw [hcase] at htbl; simp [Slot.isTable] at htbl
    | tbl u => simp [init_db, hcase, createIfNotExists, ensure_is_table]
    | nontable k => rw [hcase] at htbl; simp [Slot.isTable] at htbl

/-- C2, witness: on a state where every name is already a table, init_db
reports the books name as a table. -/
theorem c2_witness : (init_db dbAllTables).books.isTable = true :=
  (c2_init_db_amended dbAllTables (by decide) (by decide) (by decide)).1

/-- C3, counterexample: export-then-import is not content-preserving for
every books state.  A title with a leading blank is stripped on import, so
re-importing the exported file inserts a second row under the stripped key
instead of being de-duplicated, and the row set strictly grows. -/
theorem c3_counterexample :
    (roundTripBooks dbPaddedTitle).1.books.rows =
      [⟨1, " A", "B", "", "", none, none⟩, ⟨2, "A", "B", "nan", "nan", none, none⟩] ∧
    (roundTripBooks dbPaddedTitle).1.books.rows ≠ dbPaddedTitle.books.rows ∧
    dbPaddedTitle.books.rows.length = 1 := by
  decide

/-- C3, amended: for every books state in which each stored title and author
equals its whitespace-stripped form and is a plain string for pandas (not an
NA sentinel - hence non-empty - and neither numeric-like nor a boolean
literal, so the title and author columns of the exported file keep object
dtype and read back verbatim), exporting the table and importing the
produced file back leaves the books row set unchanged: every re-imported row
hits the insert-if-absent (title, author) key of the row it came from. -/
theorem c3_roundtrip_amended (db : BooksDB)
    (h : ∀ b ∈ db.books.rows, pyStrip b.title = b.title ∧ pandasPlain b.title = true ∧
      pyStrip b.author = b.author ∧ pandasPlain b.author = true) :
    (roundTripBooks db).1.books.rows = db.books.rows := by
  have hkeys : ∀ tu ∈ bookTuples (export_books db.books),
      bookKeyPresent db.books.rows tu.title tu.author = true := by
    intro tu htu
    unfold bookTuples export_books at htu
    simp only [List.map_map, List.mem_map, Function.comp] at htu
    obtain ⟨b, hb, htu⟩ := htu
    subst htu
    have hbmem : b ∈ db.books.rows := (mem_sortByTitle b db.books.rows).1 hb
    obtain ⟨h1, h2, h3, h4⟩ := h b hbmem
    show bookKeyPresent db.books.rows
      (fieldOf exportHeaders (exportRow b) ("title"))
      (fieldOf exportHeaders (exportRow b) ("author")) = true
    rw [fieldOf_exportRow_title b (pandasPlain_not_NA b.title h2),
      fieldOf_exportRow_author b (pandasPlain_not_NA b.author h4), h1, h3]
    unfold bookKeyPresent
    rw [List.any_eq_true]
    exact ⟨b, hbmem, by simp⟩
  have hfold : (bookTuples (export_books db.books)).foldl insertOrIgnoreBook db.books
      = db.books := foldl_insertOrIgnoreBook_id _ _ hkeys
  have hval : requiredPresent (export_books db.books).headers booksNeeded = true := by
    show requiredPresent exportHeaders booksNeeded = true
    decide
  by_cases hidx : db.idxTitleAuthor
  · simp [roundTripBooks, import_books, hval, hidx, hfold]
  · by_cases hnd : (db.books.rows.map (fun b => (b.title, b.author))).Nodup
    · simp [roundTripBooks, import_books, hval, hidx, hnd, hfold]
    · simp [roundTripBooks, import_books, hval, hidx, hnd]

/-- C3, witness: on a clean one-row books state, the round trip preserves
the row set. -/
theorem c3_witness :
    (roundTripBooks dbCleanBooks).1.books.rows = dbCleanBooks.books.rows :=
  c3_roundtrip_amended dbCleanBooks (by decide)

/-- C4: importing the same books.csv twice from any starting state produces
exactly the same import result (books table included, hence the same row
count) as importing it once, because the insert is insert-if-absent on the
(title, author) key and every key of the file is present after the first
import; the validation-failure and index-creation-failure branches leave the
state unchanged both times. -/
theorem c4_import_books_idempotent (csv : Csv) (db : BooksDB) :
    import_books csv (import_books csv db).1 = import_books csv db := by
  by_cases hval : requiredPresent csv.headers booksNeeded
  · have hfold2 : (bookTuples csv).foldl insertOrIgnoreBook
        ((bookTuples csv).foldl insertOrIgnoreBook db.books)
        = (bookTuples csv).foldl insertOrIgnoreBook db.books :=
      foldl_insertOrIgnoreBook_id _ _
        (fun tu htu => bookKeyPresent_foldl_self (bookTuples csv) tu db.books htu)
    by_cases hidx : db.idxTitleAuthor
    · simp [import_books, hval, hidx, hfold2]
    · by_cases hnd : (db.books.rows.map (fun b => (b.title, b.author))).Nodup
      · simp [import_books, hval, hidx, hnd, hfold2]
      · simp [import_books, hval, hidx, hnd]
  · simp [import_books, hval]

set_option maxRecDepth 16000 in
/-- C5: seeding the default locations with N = 45 twice, starting from a
fresh database file, leaves exactly the 45 distinct rows Compartment 1..45
and the second run changes nothing. -/
theorem c5_default_location_seeding :
    seededTwice = seededOnce ∧
    (Slot.rowsOf seededTwice).length = 45 ∧
    ((Slot.rowsOf seededTwice).map LocRow.name).Nodup ∧
    (Slot.rowsOf seededTwice).map LocRow.name
      = (List.range 45).map (fun i => "Compartment " ++ toString (i+1)) := by
  decide

/-- C6: invoking schema initialization twice produces exactly the same state
as invoking it once - the same tables and indexes, with every row present
after the first invocation still present after the second. -/
theorem c6_init_db_idempotent (db : DB) : init_db (init_db db) = init_db db := by
  cases db with
  | mk b m l t i1 i2 i3 =>
      simp only [init_db, createIfNotExists_idem, create_ensure_idem]

/-- C7: a transaction's return_date is unchanged (in particular stays NULL)
under any sequence of issue and mark-returned operations none of which
targets its id; the mark-returned action targeting it sets return_date to
the date of that action; and once return_date is set, no subsequent
operation ever brings it back to NULL. -/
theorem c7_return_date_lifecycle (tb : Table TxnRow) (tid : Nat) (d : String) (ops : List Op)
    (hrow : (tb.rows.find? (fun r => r.id = tid)).isSome = true) :
    ((∀ op ∈ ops, targetsTxn tid op = false) →
        returnDateOf (applyOps tb ops) tid = returnDateOf tb tid)
    ∧ returnDateOf (applyOp tb (Op.markReturned tid d)) tid = some (some d)
    ∧ ((∃ d0, returnDateOf tb tid = some (some d0)) →
        ∃ d1, returnDateOf (applyOps tb ops) tid = some (some d1)) :=
  ⟨fun h => applyOps_preserves_untargeted ops tid tb hrow h,
   returnDateOf_mark_eq tb tid d hrow,
   fun h => applyOps_keeps_returned ops tid tb h⟩

/-- C7, witness: marking the single open transaction of txnTb0 as returned
sets its return_date to the date of the action. -/
theorem c7_witness :
    returnDateOf (applyOp txnTb0 (Op.markReturned 1 ("2025-01-02"))) 1
      = some (some ("2025-01-02")) :=
  (c7_return_date_lifecycle txnTb0 1 ("2025-01-02") [] (by decide)).2.1

/-- C8: issuing a book with no due date appends exactly one transaction row,
whose book and member references are the selected ones and whose due_date
and return_date are both NULL. -/
theorem c8_issue_without_due (b m : Nat) (today : String) (tb : Table TxnRow) :
    ∃ r, (applyOp tb (Op.issue b m none today)).rows = tb.rows ++ [r] ∧
      r.book_id = b ∧ r.member_id = m ∧ r.due_date = none ∧ r.return_date = none ∧
      (applyOp tb (Op.issue b m none today)).rows.length = tb.rows.length + 1 :=
  ⟨⟨tb.nextId, b, m, today, none, none⟩, rfl, rfl, rfl, rfl, rfl, by simp [applyOp]⟩

/-- C9: a CSV whose lowercased headers do not cover the required columns of
its table makes the import report an error and leave the target table
untouched, for each of the three imports. -/
theorem c9_missing_columns_abort (csvB csvM csvL : Csv) (db : BooksDB)
    (tm : Table MemberRow) (tl : Table LocRow)
    (hb : requiredPresent csvB.headers booksNeeded = false)
    (hm : requiredPresent csvM.headers membersNeeded = false)
    (hl : requiredPresent csvL.headers locationsNeeded = false) :
    import_books csvB db = (db, true) ∧ import_members csvM tm = (tm, true) ∧
      import_locations csvL tl = (tl, true) := by
  refine ⟨?_, ?_, ?_⟩
  · simp [import_books, hb]
  · simp [import_members, hm]
  · simp [import_locations, hl]

/-- C9, witness: importing a header-less CSV into an empty books table
errors out and leaves the table unchanged. -/
theorem c9_witness :
    import_books emptyCsv ⟨⟨[], 1⟩, false⟩ = (⟨⟨[], 1⟩, false⟩, true) :=
  (c9_missing_columns_abort emptyCsv emptyCsv emptyCsv ⟨⟨[], 1⟩, false⟩ ⟨[], 1⟩ ⟨[], 1⟩
    (by decide) (by decide) (by decide)).1

/-- C10: submitting the Add Location form with a name whose stripped form
equals an existing location name leaves the locations table unchanged while
the success message is still shown; and no row whose stripped name is blank
is ever added by the form. -/
theorem c10_add_location_duplicate_and_blank (name desc : String) (t : Table LocRow)
    (hne : pyStrip name ≠ "")
    (hex : t.rows.any (fun r => r.name = pyStrip name) = true) :
    add_location name desc t = (t, true) ∧
    (∀ (n2 d2 : String) (t2 : Table LocRow) (r : LocRow),
        r ∈ (add_location n2 d2 t2).1.rows → pyStrip r.name = "" → r ∈ t2.rows) := by
  constructor
  · unfold add_location
    rw [if_neg hne]
    unfold insertOrIgnoreLoc
    rw [if_pos hex]
  · intro n2 d2 t2 r hr hblank
    unfold add_location at hr
    by_cases h2 : pyStrip n2 = ""
    · rw [if_pos h2] at hr; exact hr
    · rw [if_neg h2] at hr
      unfold insertOrIgnoreLoc at hr
      by_cases h3 : t2.rows.any (fun q => q.name = pyStrip n2) = true
      · rw [if_pos h3] at hr; exact hr
      · rw [if_neg h3] at hr
        rcases List.mem_append.mp hr with h | h
        · exact h
        · exfalso
          have hre : r = ⟨t2.nextId, pyStrip n2, pyStrip d2⟩ := by simpa using h
          rw [hre] at hblank
          rw [pyStrip_idem] at hblank
          exact h2 hblank

/-- C10, witness: adding a location whose stripped name collides with the
stored Compartment 1 changes nothing and still reports success. -/
theorem c10_witness :
    add_location (" Compartment 1 ") ("other text") locTb0 = (locTb0, true) :=
  (c10_add_location_duplicate_and_blank (" Compartment 1 ") ("other text") locTb0
    (by decide) (by decide)).1

end KenLib
